import Mathlib

/-!
# Verification of the Rider-Telemetry core (src/src/App.js)

Shallow embedding of the telemetry-processing and crash-response code of
`src/src/App.js`: sample normalization (speed selection, jitter filter,
ride-mode classification, G-force computation), the bounded history buffer,
the crash trigger, the emergency countdown, its cancellation, and the manual
call command.

Modelling conventions:
* JS numbers are modelled as rationals (`ℚ`); no claim here depends on
  IEEE-754 rounding noise.
* Optional fields of the raw JSON record are `Option ℚ`; a missing field is
  `none`.  In JS, arithmetic on a missing (`undefined`) component yields
  `NaN`, and every comparison with `NaN` is false; we model a G-force
  computed from an incomplete vector as `none`, with the crash comparison
  returning `false` on `none`, which matches the `NaN` behaviour.
* The source computes `gForce = Math.sqrt(ax²+ay²+az²)/9.8` and compares
  `gForce > 3.5`.  To keep the embedding computable we carry the squared
  value and compare against `3.5²`; `isCrash_iff_sqrt` below proves this
  equivalent to the source's square-root formulation over the reals.
* React `useState` state (`crashDetected`, `countdown`, `history`,
  `telemetry`) together with the interval handle `countdownRef` is modelled
  as explicit state records; `setInterval`/`clearInterval` become the
  boolean `timerRunning` plus a `tick` step for one elapsed second, and the
  emergency call side effect (`window.location.href = tel:…`) becomes a
  counter `calls` of call-placement invocations.
* Wall-clock timestamps (`timestamp: Date.now()`) and the asynchronous
  phone-GPS fallback are omitted: no claim refers to them.
-/

namespace RiderTelemetry

/-- A raw sample as fetched from the Pi: a JSON record whose numeric fields
may all be absent (`data.ax`, `data.ay`, `data.az`, `data.tilt`,
`data.gps_spd`, `data.mpu_spd`, `data.lat`, `data.lon`). -/
structure RawSample where
  ax : Option ℚ
  ay : Option ℚ
  az : Option ℚ
  tilt : Option ℚ
  gps_spd : Option ℚ
  mpu_spd : Option ℚ
  lat : Option ℚ
  lon : Option ℚ
deriving DecidableEq

/-- Square of the G-force of App.js line 39-40:
`gForce = Math.sqrt(ax**2 + ay**2 + az**2) / 9.8`.
`none` models the `NaN` arising when any component is `undefined`. -/
def gForceSqOf (d : RawSample) : Option ℚ :=
  match d.ax, d.ay, d.az with
  | some ax, some ay, some az => some ((ax ^ 2 + ay ^ 2 + az ^ 2) / (98 / 10) ^ 2)
  | _, _, _ => none

/-- The crash trigger condition of App.js line 80: `gForce > 3.5`.
Stated on the squared G-force (false on `none`, matching `NaN > 3.5`). -/
def isCrash (d : RawSample) : Bool :=
  match gForceSqOf d with
  | some g2 => decide ((35 / 10 : ℚ) ^ 2 < g2)
  | none => false

/-- The `else if (data.mpu_spd && data.mpu_spd > 0) rawSpeed = data.mpu_spd;`
branch of App.js line 45 (with the `rawSpeed = 0` initialisation of line 43). -/
def mpuSpeedOf (d : RawSample) : ℚ :=
  match d.mpu_spd with
  | some m => if 0 < m then m else 0
  | none => 0

/-- Raw speed selection of App.js lines 43-45:
GPS speed if present (truthy) and positive, else the MPU branch. -/
def rawSpeedOf (d : RawSample) : ℚ :=
  match d.gps_spd with
  | some g => if 0 < g then g else mpuSpeedOf d
  | none => mpuSpeedOf d

/-- `parseFloat(x.toFixed(2))`: rounding to two decimal places. -/
def round2 (q : ℚ) : ℚ := ((round (q * 100) : ℤ) : ℚ) / 100

/-- Final speed of App.js line 48:
`const speed = rawSpeed < 0.8 ? 0 : parseFloat(rawSpeed.toFixed(2));`.
Note the jitter test is on the raw, unrounded value. -/
def speedOf (d : RawSample) : ℚ :=
  if rawSpeedOf d < 8 / 10 then 0 else round2 (rawSpeedOf d)

/-- The four ride modes of App.js lines 51-55. -/
inductive RideMode where
  | Idle
  | Walking
  | Scooter
  | Motorcycle
deriving DecidableEq

/-- Ride-mode classification of App.js lines 51-55, a function of the
filtered speed only. -/
def rideModeOf (speed : ℚ) : RideMode :=
  if speed < 17 / 10 then RideMode.Idle
  else if speed < 55 / 10 then RideMode.Walking
  else if speed < 96 / 10 then RideMode.Scooter
  else RideMode.Motorcycle

/-- The `newData` record of App.js lines 57-63: the raw fields spread in,
plus derived `gForce` (carried squared, see module comment), `spd` and
`ride_mode`.  The `timestamp` field is omitted (wall clock). -/
structure Reading where
  raw : RawSample
  gForceSq : Option ℚ
  spd : ℚ
  ride_mode : RideMode
deriving DecidableEq

/-- Normalization of one raw sample into the stored `newData` record. -/
def mkReading (d : RawSample) : Reading :=
  { raw := d
    gForceSq := gForceSqOf d
    spd := speedOf d
    ride_mode := rideModeOf (speedOf d) }

/-- State of the emergency countdown machinery of App.js:
`crashDetected` and `countdown` are the `useState` values, `timerRunning`
models whether the interval stored in `countdownRef` is live, and `calls`
counts invocations of the call-placement side effect (`callEmergency`'s
`window.location.href = tel:…`). -/
structure ControllerState where
  crashDetected : Bool
  countdown : Nat
  timerRunning : Bool
  calls : Nat
deriving DecidableEq

/-- Initial controller state: `useState(false)`, `useState(0)`, no interval. -/
def initCtrl : ControllerState :=
  { crashDetected := false, countdown := 0, timerRunning := false, calls := 0 }

/-- `triggerCrashSequence` of App.js lines 89-104: if `crashDetected` return,
else set the flag, set the countdown to 30 and start the 1-second interval. -/
def triggerCrashSequence (s : ControllerState) : ControllerState :=
  if s.crashDetected then s
  else { s with crashDetected := true, countdown := 30, timerRunning := true }

/-- One firing of the interval callback of App.js lines 94-103: if the
interval is live, `setCountdown(prev => …)`: when `prev <= 1` clear the
interval, place the emergency call and return 0; otherwise `prev - 1`.
When the interval has been cleared nothing fires. -/
def tick (s : ControllerState) : ControllerState :=
  if s.timerRunning then
    if s.countdown ≤ 1 then
      { s with countdown := 0, timerRunning := false, calls := s.calls + 1 }
    else { s with countdown := s.countdown - 1 }
  else s

/-- `cancelEmergency` of App.js lines 106-110: clear the interval, clear the
flag, zero the countdown. -/
def cancelEmergency (s : ControllerState) : ControllerState :=
  { s with crashDetected := false, countdown := 0, timerRunning := false }

/-- `callEmergency` of App.js lines 112-114: places the call and nothing
else — no state reset, no interval clearing. -/
def callEmergency (s : ControllerState) : ControllerState :=
  { s with calls := s.calls + 1 }

/-- The history append of App.js line 77:
`setHistory(prev => [...prev.slice(-1000), newData])` — the last 1000
entries of the previous buffer, then the new entry.  The buffer logic never
inspects the entries, so it is stated for an arbitrary element type. -/
def appendHistory {α : Type} (prev : List α) (x : α) : List α :=
  prev.drop (prev.length - 1000) ++ [x]

/-- The coordinator state: current reading, history buffer, controller. -/
structure SysState where
  telemetry : Option Reading
  history : List Reading
  ctrl : ControllerState
deriving DecidableEq

/-- Initial coordinator state. -/
def initSys : SysState :=
  { telemetry := none, history := [], ctrl := initCtrl }

/-- The skip guard of App.js line 36:
`if (!data || data.ax === undefined) return;` — a missing response body or a
missing `ax` field aborts processing of this sample. -/
def skips : Option RawSample → Bool
  | none => true
  | some d => d.ax.isNone

/-- One iteration of the fetch handler of App.js lines 35-81 on a delivered
sample (`none` models a null/absent body): guard, normalize, store as
current telemetry, append to history, then the crash check. -/
def onSample (s : SysState) (data : Option RawSample) : SysState :=
  match data with
  | none => s
  | some d =>
    if d.ax.isNone then s
    else
      let r := mkReading d
      let s1 : SysState :=
        { telemetry := some r, history := appendHistory s.history r, ctrl := s.ctrl }
      if isCrash d then { s1 with ctrl := triggerCrashSequence s1.ctrl } else s1

/-- Processing a whole input stream from the initial state. -/
def run (inputs : List (Option RawSample)) : SysState :=
  inputs.foldl onSample initSys

/-- The controller is in spec state `Active(n)`: crash flag set, countdown
at `n`, interval live. -/
def IsActive (s : ControllerState) (n : Nat) : Prop :=
  s.crashDetected = true ∧ s.countdown = n ∧ s.timerRunning = true

/-- The controller is in spec state `Idle`: flag clear, countdown zero, no
live interval. -/
def IsIdle (s : ControllerState) : Prop :=
  s.crashDetected = false ∧ s.countdown = 0 ∧ s.timerRunning = false

instance (s : ControllerState) (n : Nat) : Decidable (IsActive s n) := by
  unfold IsActive; infer_instance

instance (s : ControllerState) : Decidable (IsIdle s) := by
  unfold IsIdle; infer_instance

/-! ## Helper lemmas -/

/-- A live countdown from `n ≥ 1` fires the call exactly once after `n`
ticks and stops, never touching the crash flag. -/
theorem ticks_expire (n : Nat) (h : 1 ≤ n) (b : Bool) (c : Nat) :
    tick^[n] ⟨b, n, true, c⟩ = ⟨b, 0, false, c + 1⟩ := by
  induction n with
  | zero => omega
  | succ m ih =>
    rcases Nat.eq_or_lt_of_le h with h1 | h2
    · simp [← h1, tick]
    · have hm : 1 ≤ m := by omega
      rw [Function.iterate_succ_apply]
      have hstep : tick ⟨b, m + 1, true, c⟩ = ⟨b, m, true, c⟩ := by
        simp [tick]; omega
      rw [hstep, ih hm]

/-- After cancellation the interval is dead: `tick` is the identity. -/
theorem tick_cancelled (s : ControllerState) :
    tick (cancelEmergency s) = cancelEmergency s := by
  simp [tick, cancelEmergency]

/-! ## Claims about the countdown controller -/

/-- C1: for every countdown state `Active(n)` with `n > 0`, the cancel
command moves the controller to `Idle` with the counter reset to `0`, and
no subsequent timer tick (any number of them) changes the controller state
or invokes the call-placement collaborator. -/
theorem cancel_active_idle_no_tick (s : ControllerState) (n : Nat)
    (_hn : 0 < n) (_ha : IsActive s n) :
    IsIdle (cancelEmergency s) ∧ (cancelEmergency s).calls = s.calls ∧
      ∀ k : Nat, tick^[k] (cancelEmergency s) = cancelEmergency s := by
  refine ⟨⟨rfl, rfl, rfl⟩, rfl, ?_⟩
  intro k
  induction k with
  | zero => rfl
  | succ m ih => rw [Function.iterate_succ_apply', ih, tick_cancelled]

/-- C1 witness: cancelling at `Active(15)` with no calls placed. -/
theorem cancel_active_idle_no_tick_witness :
    IsIdle (cancelEmergency ⟨true, 15, true, 0⟩) ∧
      (cancelEmergency ⟨true, 15, true, 0⟩).calls = 0 ∧
      ∀ k : Nat, tick^[k] (cancelEmergency ⟨true, 15, true, 0⟩) =
        cancelEmergency ⟨true, 15, true, 0⟩ :=
  cancel_active_idle_no_tick ⟨true, 15, true, 0⟩ 15 (by decide) (by decide)

/-- C10: the cancel command is total and idempotent: cancelling twice equals
cancelling once, the result is always `Idle` with countdown `0`, and
cancelling an already-idle controller is a no-op. -/
theorem cancel_idempotent (s : ControllerState) :
    cancelEmergency (cancelEmergency s) = cancelEmergency s ∧
      IsIdle (cancelEmergency s) ∧
      (IsIdle s → cancelEmergency s = s) := by
  refine ⟨rfl, ⟨rfl, rfl, rfl⟩, ?_⟩
  rintro ⟨h1, h2, h3⟩
  cases s
  simp_all [cancelEmergency]

/-- C10 witness: cancel on the initial (idle) controller state. -/
theorem cancel_idempotent_witness :
    cancelEmergency (cancelEmergency initCtrl) = cancelEmergency initCtrl ∧
      IsIdle (cancelEmergency initCtrl) ∧ cancelEmergency initCtrl = initCtrl := by
  have h := cancel_idempotent initCtrl
  exact ⟨h.1, h.2.1, h.2.2 (by decide)⟩

/-- C2 counterexample: ticking at `Active(1)` does NOT clear the
crash-detected flag, so the controller does not return to `Idle` as the
claim states. -/
theorem expiry_not_idle :
    ¬ ((tick ⟨true, 1, true, 0⟩).crashDetected = false ∧
        IsIdle (tick ⟨true, 1, true, 0⟩)) := by
  decide

/-- C2 (amended): from `Active(1)` one elapsed second invokes the
call-placement collaborator exactly once, stops the timer and resets the
countdown to `0`, but leaves the crash-detected flag set — the controller
does not return to `Idle`, and further ticks change nothing and place no
further call. -/
theorem expiry_calls_once (s : ControllerState) (ha : IsActive s 1) :
    (tick s).calls = s.calls + 1 ∧ (tick s).countdown = 0 ∧
      (tick s).timerRunning = false ∧ (tick s).crashDetected = true ∧
      tick (tick s) = tick s := by
  obtain ⟨h1, h2, h3⟩ := ha
  cases s
  simp_all [tick]

/-- C2 witness: expiry from `Active(1)` with no calls placed yet. -/
theorem expiry_calls_once_witness :
    (tick ⟨true, 1, true, 0⟩).calls = 1 ∧ (tick ⟨true, 1, true, 0⟩).countdown = 0 ∧
      (tick ⟨true, 1, true, 0⟩).timerRunning = false ∧
      (tick ⟨true, 1, true, 0⟩).crashDetected = true ∧
      tick (tick ⟨true, 1, true, 0⟩) = tick ⟨true, 1, true, 0⟩ :=
  expiry_calls_once ⟨true, 1, true, 0⟩ (by decide)

/-- C4 counterexample: the manual call-now command at `Active(15)` performs
no reset at all — afterwards the crash flag is still set and the countdown
still reads 15, contradicting the claimed reset to `Idle` with counter 0. -/
theorem call_now_no_reset :
    ¬ ((callEmergency ⟨true, 15, true, 0⟩).crashDetected = false ∧
        (callEmergency ⟨true, 15, true, 0⟩).countdown = 0) := by
  decide

/-- C4 (amended): from `Active(n)` with `n > 0` the manual call-now command
invokes the call-placement collaborator once but performs no state change:
the controller stays `Active(n)` with the timer still live, and when the
countdown later expires naturally the collaborator is invoked a second
time. -/
theorem call_now_calls_but_keeps_countdown (s : ControllerState) (n : Nat)
    (hn : 0 < n) (ha : IsActive s n) :
    (callEmergency s).calls = s.calls + 1 ∧ IsActive (callEmergency s) n ∧
      (tick^[n] (callEmergency s)).calls = s.calls + 2 := by
  obtain ⟨h1, h2, h3⟩ := ha
  have hs : s = ⟨true, n, true, s.calls⟩ := by
    cases s; simp_all
  rw [hs]
  refine ⟨rfl, ⟨rfl, rfl, rfl⟩, ?_⟩
  have hc : callEmergency ⟨true, n, true, s.calls⟩ = ⟨true, n, true, s.calls + 1⟩ := rfl
  rw [hc, ticks_expire n hn]

/-- C4 witness: call-now at `Active(15)`; the call fires now and again at
expiry. -/
theorem call_now_calls_but_keeps_countdown_witness :
    (callEmergency ⟨true, 15, true, 0⟩).calls = 1 ∧
      IsActive (callEmergency ⟨true, 15, true, 0⟩) 15 ∧
      (tick^[15] (callEmergency ⟨true, 15, true, 0⟩)).calls = 2 :=
  call_now_calls_but_keeps_countdown ⟨true, 15, true, 0⟩ 15 (by decide) (by decide)

/-! ## Claims about crash detection and the coordinator -/

/-- The squared comparison used by `isCrash` agrees with the source's
formulation `Math.sqrt(ax**2+ay**2+az**2)/9.8 > 3.5` over the reals. -/
theorem isCrash_iff_sqrt (d : RawSample) (ax ay az : ℚ)
    (hx : d.ax = some ax) (hy : d.ay = some ay) (hz : d.az = some az) :
    isCrash d = true ↔
      (35 / 10 : ℝ) <
        Real.sqrt ((ax : ℝ) ^ 2 + (ay : ℝ) ^ 2 + (az : ℝ) ^ 2) / (98 / 10) := by
  unfold isCrash gForceSqOf
  rw [hx, hy, hz]
  simp only [decide_eq_true_eq]
  rw [lt_div_iff₀ (by norm_num : (0:ℚ) < (98 / 10) ^ 2),
    lt_div_iff₀ (by norm_num : (0:ℝ) < 98 / 10),
    Real.lt_sqrt (by norm_num : (0:ℝ) ≤ 35 / 10 * (98 / 10))]
  rw [show ((35:ℝ) / 10 * (98 / 10)) ^ 2 = (((35 / 10 : ℚ) ^ 2 * (98 / 10) ^ 2 : ℚ) : ℝ) by
    push_cast; ring]
  rw [show (ax : ℝ) ^ 2 + (ay : ℝ) ^ 2 + (az : ℝ) ^ 2 =
      ((ax ^ 2 + ay ^ 2 + az ^ 2 : ℚ) : ℝ) by push_cast; ring]
  exact_mod_cast Iff.rfl

/-- C3: a sample whose acceleration magnitude exceeds 3.5 G delivered while
the controller is `Idle` moves the controller to `Active(30)` (no call
placed); delivered while the controller is already `Active(n)`, it is
ignored — the controller state is unchanged: the counter is not reset and
no second countdown is started. -/
theorem crash_signal_transitions (s : SysState) (d : RawSample) (ax ay az : ℚ)
    (hx : d.ax = some ax) (hy : d.ay = some ay) (hz : d.az = some az)
    (hg : (35 / 10 : ℝ) <
      Real.sqrt ((ax : ℝ) ^ 2 + (ay : ℝ) ^ 2 + (az : ℝ) ^ 2) / (98 / 10)) :
    (IsIdle s.ctrl →
      (onSample s (some d)).ctrl =
        { crashDetected := true, countdown := 30, timerRunning := true,
          calls := s.ctrl.calls }) ∧
    (∀ n : Nat, 0 < n → IsActive s.ctrl n → (onSample s (some d)).ctrl = s.ctrl) := by
  have hax : d.ax.isNone = false := by rw [hx]; rfl
  have hc : isCrash d = true := (isCrash_iff_sqrt d ax ay az hx hy hz).mpr hg
  have hctrl : (onSample s (some d)).ctrl = triggerCrashSequence s.ctrl := by
    simp [onSample, hax, hc]
  rw [hctrl]
  constructor
  · rintro ⟨h1, h2, h3⟩
    simp [triggerCrashSequence, h1]
  · rintro n hn ⟨h1, h2, h3⟩
    simp [triggerCrashSequence, h1]

/-- A concrete crash-strength sample: `(ax,ay,az) = (39.2, 0, 0)`, i.e.
exactly 4.0 G. -/
def crashSample : RawSample :=
  { ax := some (196 / 5), ay := some 0, az := some 0, tilt := none,
    gps_spd := none, mpu_spd := none, lat := none, lon := none }

/-- C3 witness: a 4.0 G sample delivered in the initial (idle) state starts
the 30-second countdown. -/
theorem crash_signal_transitions_witness :
    IsIdle initSys.ctrl ∧
      (onSample initSys (some crashSample)).ctrl =
        { crashDetected := true, countdown := 30, timerRunning := true,
          calls := initSys.ctrl.calls } := by
  refine ⟨by decide, ?_⟩
  refine (crash_signal_transitions initSys crashSample (196 / 5) 0 0 rfl rfl rfl ?_).1
    (by decide)
  have hsq : Real.sqrt (((196 / 5 : ℚ) : ℝ) ^ 2 + ((0 : ℚ) : ℝ) ^ 2 + ((0 : ℚ) : ℝ) ^ 2) =
      196 / 5 := by
    push_cast
    rw [show ((196:ℝ) / 5) ^ 2 + 0 ^ 2 + 0 ^ 2 = (196 / 5) ^ 2 by ring]
    exact Real.sqrt_sq (by norm_num)
  rw [hsq]
  norm_num

/-! ## Claims about normalization -/

/-- C8: ride mode is a pure function of the filtered speed, with the
half-open bands `< 1.7 → Idle`, `[1.7, 5.5) → Walking`, `[5.5, 9.6) →
Scooter`, `≥ 9.6 → Motorcycle`; the stored reading's mode is exactly this
function of its stored speed. -/
theorem rideMode_thresholds (s : ℚ) (d : RawSample) :
    (s < 17 / 10 → rideModeOf s = RideMode.Idle) ∧
    (17 / 10 ≤ s → s < 55 / 10 → rideModeOf s = RideMode.Walking) ∧
    (55 / 10 ≤ s → s < 96 / 10 → rideModeOf s = RideMode.Scooter) ∧
    (96 / 10 ≤ s → rideModeOf s = RideMode.Motorcycle) ∧
    (mkReading d).ride_mode = rideModeOf ((mkReading d).spd) := by
  refine ⟨fun h => ?_, fun h1 h2 => ?_, fun h1 h2 => ?_, fun h1 => ?_, rfl⟩
  · rw [rideModeOf, if_pos h]
  · rw [rideModeOf, if_neg (by linarith), if_pos h2]
  · rw [rideModeOf, if_neg (by linarith), if_neg (by linarith), if_pos h2]
  · rw [rideModeOf, if_neg (by linarith), if_neg (by linarith), if_neg (by linarith)]

/-- C8 witness: the four boundary speeds 1.69, 1.7, 5.5 and 9.6. -/
theorem rideMode_thresholds_witness :
    rideModeOf (169 / 100) = RideMode.Idle ∧
      rideModeOf (17 / 10) = RideMode.Walking ∧
      rideModeOf (55 / 10) = RideMode.Scooter ∧
      rideModeOf (96 / 10) = RideMode.Motorcycle :=
  ⟨(rideMode_thresholds (169 / 100) ⟨none, none, none, none, none, none, none, none⟩).1
      (by norm_num),
   (rideMode_thresholds (17 / 10) ⟨none, none, none, none, none, none, none, none⟩).2.1
      (by norm_num) (by norm_num),
   (rideMode_thresholds (55 / 10) ⟨none, none, none, none, none, none, none, none⟩).2.2.1
      (by norm_num) (by norm_num),
   (rideMode_thresholds (96 / 10) ⟨none, none, none, none, none, none, none, none⟩).2.2.2.1
      (by norm_num)⟩

/-- A raw sample that carries acceleration data (`ay = 5`) but no `ax`
field. -/
def c6sample : RawSample :=
  { ax := none, ay := some 5, az := none, tilt := none,
    gps_spd := none, mpu_spd := none, lat := none, lon := none }

/-- C6 counterexample: a sample whose acceleration vector is not entirely
absent (`ay` is present) is nonetheless skipped, because the guard only
tests `ax` — so Skip does not happen exactly when the vector is entirely
absent. -/
theorem skip_not_vector_absent :
    ¬ (skips (some c6sample) = true ↔
        (c6sample.ax = none ∧ c6sample.ay = none ∧ c6sample.az = none)) := by
  decide

/-- C6 (amended): a sample is skipped exactly when the response body is
absent or its `ax` field is absent; a skipped sample changes nothing (no
append, no crash evaluation, no error), while any sample with `ax` present
is normalized and appended even if `ay`/`az` are missing. -/
theorem skip_iff_ax_missing (s : SysState) (data : Option RawSample) :
    (skips data = true ↔ ∀ d, data = some d → d.ax = none) ∧
    (skips data = true → onSample s data = s) ∧
    (∀ d, data = some d → skips data = false →
      (onSample s data).history = appendHistory s.history (mkReading d) ∧
      (onSample s data).telemetry = some (mkReading d)) := by
  cases data with
  | none =>
    refine ⟨by simp [skips], fun _ => rfl, fun d hd => by cases hd⟩
  | some d =>
    refine ⟨?_, ?_, ?_⟩
    · simp only [skips]
      constructor
      · intro h d' hd'
        cases hd'
        exact Option.isNone_iff_eq_none.mp h
      · intro h
        exact Option.isNone_iff_eq_none.mpr (h d rfl)
    · intro h
      have hax : d.ax.isNone = true := h
      simp [onSample, hax]
    · intro d' hd' hskip
      cases hd'
      have hax : d.ax.isNone = false := by
        simpa [skips] using hskip
      cases hc : isCrash d <;> simp [onSample, hax, hc]

/-- A raw sample with `ax` present but `ay`/`az` missing. -/
def c6proc : RawSample :=
  { ax := some 1, ay := none, az := none, tilt := none,
    gps_spd := none, mpu_spd := none, lat := none, lon := none }

/-- C6 witness: a sample with only `ax` present is not skipped and is
appended to the history. -/
theorem skip_iff_ax_missing_witness :
    skips (some c6proc) = false ∧
      (onSample initSys (some c6proc)).history =
        appendHistory initSys.history (mkReading c6proc) :=
  ⟨by decide,
   ((skip_iff_ax_missing initSys (some c6proc)).2.2 c6proc rfl (by decide)).1⟩

/-- Evaluation rule for `round2`: if `z` is the integer nearest `100·q`
(round half up), then `round2 q = z / 100`. -/
theorem round2_eq (q : ℚ) (z : ℤ) (h1 : (z : ℚ) ≤ q * 100 + 1 / 2)
    (h2 : q * 100 + 1 / 2 < z + 1) : round2 q = (z : ℚ) / 100 := by
  unfold round2
  rw [round_eq, Int.floor_eq_iff.mpr ⟨h1, h2⟩]

/-- A raw sample whose GPS speed is 0.796 km/h (with a large inertial
speed, to show it is ignored). -/
def c7sample : RawSample :=
  { ax := none, ay := none, az := none, tilt := none,
    gps_spd := some (796 / 1000), mpu_spd := some 50, lat := none, lon := none }

/-- C7 counterexample: for GPS speed g = 0.796, g rounded to two decimals
is 0.80, which is not below 0.8, so the claim says the derived speed is
0.80 — but the code tests the unrounded value (0.796 < 0.8) and snaps to
0. -/
theorem speed_snap_before_round :
    c7sample.gps_spd = some (796 / 1000) ∧ (0 : ℚ) < 796 / 1000 ∧
      ¬ round2 (796 / 1000) < 8 / 10 ∧ speedOf c7sample ≠ round2 (796 / 1000) := by
  have hr : round2 (796 / 1000) = 4 / 5 := by
    rw [round2_eq (796 / 1000) 80 (by norm_num) (by norm_num)]
    norm_num
  have hraw : rawSpeedOf c7sample = 796 / 1000 := by
    unfold rawSpeedOf c7sample
    norm_num
  have hs : speedOf c7sample = 0 := by
    rw [speedOf, hraw]
    norm_num
  refine ⟨rfl, by norm_num, by rw [hr]; norm_num, by rw [hs, hr]; norm_num⟩

/-- C7 (amended): source precedence is as claimed — GPS speed when present
and positive, else inertial speed when present and positive, else 0 — but
the sub-0.8 snap is applied to the raw chosen value before rounding: the
result is 0 when the chosen value is < 0.8 and otherwise the chosen value
rounded to two decimals. -/
theorem speed_precedence (d : RawSample) :
    (∀ g, d.gps_spd = some g → 0 < g →
      speedOf d = if g < 8 / 10 then 0 else round2 g) ∧
    ((∀ g, d.gps_spd = some g → g ≤ 0) → ∀ m, d.mpu_spd = some m → 0 < m →
      speedOf d = if m < 8 / 10 then 0 else round2 m) ∧
    ((∀ g, d.gps_spd = some g → g ≤ 0) → (∀ m, d.mpu_spd = some m → m ≤ 0) →
      speedOf d = 0) := by
  refine ⟨?_, ?_, ?_⟩
  · intro g hg hpos
    have hraw : rawSpeedOf d = g := by
      unfold rawSpeedOf
      rw [hg]
      simp [hpos]
    rw [speedOf, hraw]
  · intro hgps m hm hpos
    have hraw : rawSpeedOf d = m := by
      have hmpu : mpuSpeedOf d = m := by
        unfold mpuSpeedOf
        rw [hm]
        simp [hpos]
      unfold rawSpeedOf
      cases hg : d.gps_spd with
      | none => exact hmpu
      | some g =>
        have hng := hgps g hg
        show (if 0 < g then g else mpuSpeedOf d) = m
        rw [if_neg (not_lt.mpr hng), hmpu]
    rw [speedOf, hraw]
  · intro hgps hmpu
    have hraw : rawSpeedOf d = 0 := by
      have hm : mpuSpeedOf d = 0 := by
        unfold mpuSpeedOf
        cases hm : d.mpu_spd with
        | none => rfl
        | some m =>
          have hnm := hmpu m hm
          show (if 0 < m then m else 0) = 0
          rw [if_neg (not_lt.mpr hnm)]
      unfold rawSpeedOf
      cases hg : d.gps_spd with
      | none => exact hm
      | some g =>
        have hng := hgps g hg
        show (if 0 < g then g else mpuSpeedOf d) = 0
        rw [if_neg (not_lt.mpr hng), hm]
    rw [speedOf, hraw]
    norm_num

/-- A raw sample with GPS speed 2.5 km/h and inertial speed 3 km/h. -/
def c7fast : RawSample :=
  { ax := none, ay := none, az := none, tilt := none,
    gps_spd := some (5 / 2), mpu_spd := some 3, lat := none, lon := none }

/-- C7 witness: with GPS speed 2.5 the derived speed is 2.5 (inertial speed
ignored). -/
theorem speed_precedence_witness :
    speedOf c7fast = if (5 / 2 : ℚ) < 8 / 10 then 0 else round2 (5 / 2) :=
  (speed_precedence c7fast).1 (5 / 2) rfl (by norm_num)

/-! ## Claims about the history buffer -/

/-- Each append keeps `min (size, 1000)` old entries plus the new one. -/
theorem appendHistory_length {α : Type} (prev : List α) (x : α) :
    (appendHistory prev x).length = min prev.length 1000 + 1 := by
  simp [appendHistory]
  omega

/-- Folding appends from the empty buffer keeps exactly the most recent
1001 inputs, in order. -/
theorem foldl_appendHistory {α : Type} (l : List α) :
    List.foldl appendHistory [] l = l.drop (l.length - 1001) := by
  induction l using List.reverseRecOn with
  | nil => simp
  | append_singleton l x ih =>
    rw [List.foldl_append, List.foldl_cons, List.foldl_nil, ih]
    unfold appendHistory
    rw [List.length_drop, List.drop_drop,
      List.drop_append_of_le_length (by simp)]
    rw [show (l.length - 1001 + (l.length - (l.length - 1001) - 1000))
        = (l ++ [x]).length - 1001 by simp; omega]

/-- C5 counterexample: appending to a buffer that already holds 1000
entries drops nothing — the result has 1001 entries, so the claimed
"at most 1000 after every append" fails. -/
theorem append_overflows :
    ¬ ((appendHistory (List.range 1000) 1000).length ≤ 1000) := by
  rw [appendHistory_length]
  simp

/-- C5 (amended): the buffer's effective capacity is 1001, not 1000: an
append keeps the last 1000 existing entries plus the new reading, so a
buffer at size ≥ 1000 ends up with exactly 1001 entries; consequently,
appending a stream of readings to the empty buffer retains exactly the
most recent `min (n, 1001)` readings, oldest-first in insertion order —
for 1500 appends, the most recent 1001. -/
theorem history_keeps_last_1001 {α : Type} (l : List α) (prev : List α) (x : α) :
    List.foldl appendHistory [] l = l.drop (l.length - 1001) ∧
      (List.foldl appendHistory [] l).length = min l.length 1001 ∧
      (appendHistory prev x).length = min prev.length 1000 + 1 := by
  refine ⟨foldl_appendHistory l, ?_, appendHistory_length prev x⟩
  rw [foldl_appendHistory l, List.length_drop]
  omega

/-! ## Claims about stored speeds -/

/-- The derived speed is never strictly between 0 and 0.8. -/
theorem speedOf_zero_or_ge (d : RawSample) :
    speedOf d = 0 ∨ 8 / 10 ≤ speedOf d := by
  unfold speedOf
  by_cases h : rawSpeedOf d < 8 / 10
  · left
    rw [if_pos h]
  · right
    rw [if_neg h]
    push_neg at h
    have hmono : (round ((8 / 10 : ℚ) * 100) : ℤ) ≤ round (rawSpeedOf d * 100) := by
      rw [round_eq, round_eq]
      exact Int.floor_le_floor (by linarith)
    have h80 : round ((8 / 10 : ℚ) * 100) = 80 := by
      rw [show (8 / 10 : ℚ) * 100 = ((80 : ℤ) : ℚ) by norm_num, round_intCast]
    rw [h80] at hmono
    unfold round2
    rw [le_div_iff₀ (by norm_num : (0:ℚ) < 100)]
    calc (8 / 10 : ℚ) * 100 = ((80 : ℤ) : ℚ) := by norm_num
    _ ≤ ((round (rawSpeedOf d * 100) : ℤ) : ℚ) := by exact_mod_cast hmono

/-- Membership in the history after one step: an entry was already there or
is the reading of the processed sample. -/
theorem mem_history_onSample {s : SysState} {data : Option RawSample} {r : Reading}
    (hr : r ∈ (onSample s data).history) :
    r ∈ s.history ∨ ∃ d, data = some d ∧ r = mkReading d := by
  cases data with
  | none => exact Or.inl hr
  | some d =>
    by_cases hax : d.ax.isNone
    · simp only [onSample, hax, if_pos] at hr
      exact Or.inl hr
    · have hh : (onSample s (some d)).history = appendHistory s.history (mkReading d) := by
        cases hc : isCrash d <;> simp [onSample, hax, hc]
      rw [hh] at hr
      unfold appendHistory at hr
      rcases List.mem_append.mp hr with h | h
      · exact Or.inl (List.drop_subset _ _ h)
      · simp only [List.mem_singleton] at h
        exact Or.inr ⟨d, rfl, h⟩

/-- The speed-gap property is an invariant of the processing loop. -/
theorem history_speed_gap_aux (inputs : List (Option RawSample)) (s : SysState)
    (hs : ∀ r ∈ s.history, r.spd = 0 ∨ 8 / 10 ≤ r.spd) :
    ∀ r ∈ (inputs.foldl onSample s).history, r.spd = 0 ∨ 8 / 10 ≤ r.spd := by
  induction inputs generalizing s with
  | nil => exact hs
  | cons d rest ih =>
    refine ih (onSample s d) ?_
    intro r hr
    rcases mem_history_onSample hr with h | ⟨d', _, hr'⟩
    · exact hs r h
    · rw [hr']
      exact speedOf_zero_or_ge d'

/-- C9: every reading stored in the history buffer has a speed that is
either exactly 0 or at least 0.8 km/h — the jitter-suppression gap holds
for all stored readings, for every input stream. -/
theorem history_speed_gap (inputs : List (Option RawSample)) (r : Reading)
    (hr : r ∈ (run inputs).history) : r.spd = 0 ∨ 8 / 10 ≤ r.spd :=
  history_speed_gap_aux inputs initSys (by intro r h; cases h) r hr

/-- A raw sample with acceleration present and all speed sources absent. -/
def c9sample : RawSample :=
  { ax := some 1, ay := some 0, az := some 0, tilt := none,
    gps_spd := none, mpu_spd := none, lat := none, lon := none }

/-- C9 witness: processing one concrete sample stores a reading whose speed
respects the gap. -/
theorem history_speed_gap_witness :
    mkReading c9sample ∈ (run [some c9sample]).history ∧
      ((mkReading c9sample).spd = 0 ∨ 8 / 10 ≤ (mkReading c9sample).spd) := by
  have hcrash : isCrash c9sample = false := by
    norm_num [isCrash, gForceSqOf, c9sample]
  have hax : c9sample.ax.isNone = false := rfl
  have hmem : mkReading c9sample ∈ (run [some c9sample]).history := by
    simp [run, onSample, hax, hcrash, appendHistory, initSys]
  exact ⟨hmem, history_speed_gap [some c9sample] (mkReading c9sample) hmem⟩

end RiderTelemetry
